import Mathlib

/-!
Verification of the Mars terraforming game (curmars).

The game core lives in the React `App` component: a `Resource` record
(oxygen, water, temperature, energy), an upgrade catalog, an event catalog,
and a handful of timer effects (passive drain, event roll, critical
countdown, win check) plus two mutation entry points (`handleAction` for
generation, `purchaseUpgrade`).  Numbers are modelled as rationals; the
source arithmetic is linear with decimal literals and threshold compares.
The LLM agent wrapper (`agent.ts`) is modelled at the level of its parsed
response: the network call and JSON parse collapse into an
`Except Unit (Option (List String))` outcome fed to `getNextActions`.
-/

namespace Curmars

/-- The four resource kinds (`keyof Resource` in the source). -/
inductive ResourceType where
  | oxygen
  | water
  | temperature
  | energy
deriving DecidableEq, Repr

/-- The `Resource` record of `App`: oxygen, water, energy are percentages,
temperature is degrees Celsius. -/
structure Resources where
  oxygen : ℚ
  water : ℚ
  temperature : ℚ
  energy : ℚ
deriving DecidableEq, Repr

/-- Field read `resources[type]`. -/
def Resources.get (r : Resources) : ResourceType → ℚ
  | .oxygen => r.oxygen
  | .water => r.water
  | .temperature => r.temperature
  | .energy => r.energy

/-- Field write `{ ...resources, [type]: v }`. -/
def Resources.set (r : Resources) : ResourceType → ℚ → Resources
  | .oxygen, v => { r with oxygen := v }
  | .water, v => { r with water := v }
  | .temperature, v => { r with temperature := v }
  | .energy, v => { r with energy := v }

/-- The `Upgrade` record. -/
structure Upgrade where
  id : String
  name : String
  cost : ℚ
  resourceType : ResourceType
  multiplier : ℚ
  purchased : Bool
deriving DecidableEq, Repr

/-- The initial upgrade catalog (the `useState<Upgrade[]>` initializer). -/
def initialUpgrades : List Upgrade :=
  [ ⟨"oxygen1", "Basic Oxygen Generator", 80, .oxygen, 1.2, false⟩,
    ⟨"water1", "Water Extractor", 80, .water, 1.2, false⟩,
    ⟨"temp1", "Thermal Generator", 80, .temperature, 1.2, false⟩,
    ⟨"oxygen2", "Advanced Oxygen System", 200, .oxygen, 1.5, false⟩,
    ⟨"water2", "Deep Core Extractor", 200, .water, 1.5, false⟩,
    ⟨"temp2", "Fusion Array", 200, .temperature, 1.5, false⟩,
    ⟨"energy1", "Solar Array", 150, .energy, 1.3, false⟩,
    ⟨"energy2", "Nuclear Generator", 300, .energy, 1.8, false⟩ ]

/-- The game session state: the pieces of `App` component state that the
mutation entry points and timer effects read and write. -/
structure GameState where
  resources : Resources
  credits : ℚ
  upgrades : List Upgrade
  gameWon : Bool
  gameLost : Bool
  gameStarted : Bool
  criticalTimer : ℕ
  countdownSeconds : ℕ
deriving DecidableEq, Repr

/-- The initial session state. -/
def initState : GameState :=
  { resources := { oxygen := 0, water := 0, temperature := -60, energy := 100 }
    credits := 30
    upgrades := initialUpgrades
    gameWon := false
    gameLost := false
    gameStarted := false
    criticalTimer := 0
    countdownSeconds := 30 }

/-- `getMultiplier`: product over purchased upgrades of the given type,
computed with `filter` + `reduce` starting from 1 as in the source. -/
def getMultiplier (upgrades : List Upgrade) (t : ResourceType) : ℚ :=
  (upgrades.filter (fun u => u.resourceType == t && u.purchased)).foldl
    (fun mult u => mult * u.multiplier) 1

/-- The `baseGain` table of `handleAction` (the energy entry is present in
the source object but unreachable: the energy branch returns earlier). -/
def baseGain : ResourceType → ℚ
  | .temperature => 0.3
  | .oxygen => 3
  | .water => 3
  | .energy => 5

/-- `handleAction(type)`: the generate entry point.  Marks the game started
before the terminal check; the energy branch gains `8 × multiplier` with no
cost; other branches require `energy ≥ 10`, gain
`baseGain × multiplier × energy/100` clamped (50 for temperature, 100
otherwise), pay 10 energy clamped at 0, and award +2 credits. -/
def handleAction (s : GameState) (t : ResourceType) : GameState :=
  let s1 := { s with gameStarted := true }
  if s1.gameWon || s1.gameLost then s1
  else if t = ResourceType.energy then
    let multiplier := getMultiplier s1.upgrades ResourceType.energy
    { s1 with
      resources :=
        { s1.resources with
          energy := min 100 (s1.resources.energy + 8 * multiplier) }
      credits := s1.credits + 2 }
  else if s1.resources.energy < 10 then s1
  else
    let multiplier := getMultiplier s1.upgrades t
    let r := s1.resources
    let energyEfficiency := r.energy / 100
    let cap : ℚ := if t = ResourceType.temperature then 50 else 100
    let r1 := r.set t (min cap (r.get t + baseGain t * multiplier * energyEfficiency))
    let r2 := { r1 with energy := max 0 (r.energy - 10) }
    { s1 with resources := r2, credits := s1.credits + 2 }

/-- `purchaseUpgrade(upgrade)`: marks the game started before the terminal
check; when not terminal, already-purchased or unaffordable upgrades are a
silent no-op; otherwise credits drop by the cost and the matching list entry
is flagged purchased. -/
def purchaseUpgrade (s : GameState) (u : Upgrade) : GameState :=
  let s1 := { s with gameStarted := true }
  if s1.gameWon || s1.gameLost then s1
  else if u.cost ≤ s1.credits && !u.purchased then
    { s1 with
      credits := s1.credits - u.cost
      upgrades := s1.upgrades.map
        (fun v => if v.id = u.id then { v with purchased := true } else v) }
  else s1

/-- One firing of the 3-second drain interval (`drainInterval` callback). -/
def drainTick (r : Resources) : Resources :=
  let energyEfficiency := r.energy / 100
  { oxygen := max 0 (r.oxygen - 1.2 * (2 - energyEfficiency))
    water := max 0 (r.water - 0.8 * (2 - energyEfficiency))
    temperature := max (-60) (r.temperature - 0.4 * (2 - energyEfficiency))
    energy := max 0 (r.energy - 0.6) }

/-- Event severity. -/
inductive Severity where
  | positive
  | negative
deriving DecidableEq, Repr

/-- The `Event` record: a perturbation of the resources. -/
structure Event where
  id : String
  title : String
  description : String
  effect : Resources → Resources
  severity : Severity

/-- The event catalog (the `events` array of `App`). -/
def events : List Event :=
  [ { id := "dust_storm", title := "Dust Storm",
      description := "A massive dust storm hits your colony!",
      severity := .negative,
      effect := fun res =>
        { res with
          oxygen := max 0 (res.oxygen - 12)
          temperature := max (-60) (res.temperature - 5)
          energy := max 0 (res.energy - 15) } },
    { id := "ice_discovery", title := "Ice Discovery",
      description := "Your rovers discovered an underground ice deposit!",
      severity := .positive,
      effect := fun res => { res with water := min 100 (res.water + 12) } },
    { id := "solar_flare", title := "Solar Flare",
      description := "A solar flare increases atmospheric temperature!",
      severity := .positive,
      effect := fun res =>
        { res with temperature := min 50 (res.temperature + 4) } },
    { id := "meteor_impact", title := "Meteor Impact",
      description := "A meteor has struck nearby, releasing underground water!",
      severity := .positive,
      effect := fun res =>
        { res with
          water := min 100 (res.water + 15)
          temperature := min 50 (res.temperature + 2) } },
    { id := "radiation_storm", title := "Radiation Storm",
      description := "A radiation storm is affecting your oxygen generators!",
      severity := .negative,
      effect := fun res => { res with oxygen := max 0 (res.oxygen - 12) } },
    { id := "volcanic_activity", title := "Volcanic Activity",
      description := "Dormant volcanoes are showing activity!",
      severity := .positive,
      effect := fun res =>
        { res with temperature := min 50 (res.temperature + 6) } },
    { id := "equipment_failure", title := "Equipment Failure",
      description := "Critical systems are malfunctioning!",
      severity := .negative,
      effect := fun res =>
        { res with
          oxygen := max 0 (res.oxygen - 10)
          water := max 0 (res.water - 8) } },
    { id := "atmospheric_leak", title := "Atmospheric Leak",
      description := "Oxygen is rapidly escaping through a breach!",
      severity := .negative,
      effect := fun res => { res with oxygen := max 0 (res.oxygen - 15) } },
    { id := "freezing_wave", title := "Freezing Wave",
      description := "A severe cold front is approaching!",
      severity := .negative,
      effect := fun res =>
        { res with
          temperature := max (-60) (res.temperature - 8)
          water := max 0 (res.water - 5) } },
    { id := "sandstorm", title := "Sandstorm",
      description := "A violent sandstorm is damaging equipment!",
      severity := .negative,
      effect := fun res =>
        { res with
          oxygen := max 0 (res.oxygen - 7)
          water := max 0 (res.water - 4) } },
    { id := "system_failure", title := "Critical System Failure",
      description := "Multiple systems are failing simultaneously!",
      severity := .negative,
      effect := fun res =>
        { res with
          oxygen := max 0 (res.oxygen - 20)
          water := max 0 (res.water - 15)
          energy := max 0 (res.energy - 25) } },
    { id := "energy_surge", title := "Energy Grid Surge",
      description := "Power systems are overloading!",
      severity := .negative,
      effect := fun res => { res with energy := max 0 (res.energy - 30) } } ]

/-- Eligibility check of the event roll:
`!eventCooldowns[event.id] || currentTime - eventCooldowns[event.id] > 15000`.
A missing entry is eligible, and (faithful to JS falsiness) so is a recorded
timestamp of exactly 0. -/
def eventEligible (cooldowns : List (String × Int)) (now : Int)
    (id : String) : Bool :=
  match cooldowns.lookup id with
  | none => true
  | some ts => ts == 0 || now - ts > 15000

/-- The selection step of the event roll: filter the catalog by eligibility
against `capturedCooldowns` and pick an element of the filtered list (the
random index is modelled by an arbitrary `k`, reduced mod the length); with
no eligible event, none fires.  The table consulted here is the
`eventCooldowns` value the interval callback closed over when the event
effect last mounted: the effect's dependency array omits `eventCooldowns`,
so triggers recorded while the interval is running never reach this
filter. -/
def eventRollSelect (capturedCooldowns : List (String × Int)) (now : Int)
    (k : ℕ) : Option Event :=
  let availableEvents :=
    events.filter (fun e => eventEligible capturedCooldowns now e.id)
  if availableEvents.length = 0 then none
  else availableEvents.get? (k % availableEvents.length)

/-- One firing of the 6-second event interval callback, with the stale
closure made explicit: `captured` is the `eventCooldowns` snapshot the
callback closed over at effect mount and is all the eligibility filter ever
reads, while the two `setEventCooldowns` calls (expiry cleanup, then trigger
recording, both functional updaters) write the live table.  `fire` models
`Math.random() < 0.5` and `k` the random index; the selected event's
resource write is the `Step.eventFire` step.  Returns the updated live
table and the fired event, if any. -/
def eventIntervalTick (captured live : List (String × Int)) (now : Int)
    (fire : Bool) (k : ℕ) : List (String × Int) × Option Event :=
  let cleaned := live.filter (fun p => !(decide (now - p.2 > 15000)))
  if fire then
    match eventRollSelect captured now k with
    | none => (cleaned, none)
    | some e =>
      ((e.id, now) :: cleaned.filter (fun p => !(p.1 == e.id)), some e)
  else (cleaned, none)

/-- `isCritical`: `oxygen <= 5 || water <= 5 || energy <= 5`. -/
def isCritical (r : Resources) : Bool :=
  decide (r.oxygen ≤ 5) || decide (r.water ≤ 5) || decide (r.energy ≤ 5)

/-- The body of the combined critical-check effect (minus the 1-second
interval it installs): entering the critical state arms the flag and resets
the countdown to 30; leaving it disarms the flag and resets to 30. -/
def criticalCheck (s : GameState) : GameState :=
  if !s.gameStarted || s.gameWon || s.gameLost then s
  else if isCritical s.resources then
    if s.criticalTimer = 0 then
      { s with criticalTimer := 1, countdownSeconds := 30 }
    else s
  else { s with criticalTimer := 0, countdownSeconds := 30 }

/-- One firing of the 1-second countdown interval installed while critical:
at `prev <= 1` the game is lost and the countdown pinned to 0, otherwise the
countdown decrements. -/
def countdownTick (s : GameState) : GameState :=
  if s.countdownSeconds ≤ 1 then
    { s with gameLost := true, countdownSeconds := 0 }
  else { s with countdownSeconds := s.countdownSeconds - 1 }

/-- The win-condition effect: skipped when lost, sets `gameWon` when
`oxygen >= 100 && water >= 100 && temperature >= 15`. -/
def winCheck (s : GameState) : GameState :=
  if s.gameLost then s
  else if 100 ≤ s.resources.oxygen ∧ 100 ≤ s.resources.water ∧
      15 ≤ s.resources.temperature then
    { s with gameWon := true }
  else s

/-- A `GameAction` of `agent.ts`.  The target models the runtime value of
`actionStr.split(":")[1]`, which is `undefined` (here `none`) when the
string has no colon. -/
structure GameAction where
  kind : String
  target : Option String
deriving DecidableEq, Repr

/-- Split a character list at the first colon: the prefix and, when a colon
occurs, the remainder after it.  Models the first two cells of
`actionStr.split(":")`. -/
def breakColon : List Char → List Char × Option (List Char)
  | [] => ([], none)
  | c :: cs =>
    if c = ':' then ([], some cs)
    else
      let rest := breakColon cs
      (c :: rest.1, rest.2)

/-- `parseAction`: destructure `actionStr.split(":")` into `[type, target]`;
keep the pair when the type is `generate` or `purchase`, otherwise fall back
to the default `generate:energy` action. -/
def parseAction (actionStr : String) : GameAction :=
  let first := breakColon actionStr.toList
  let ty := String.mk first.1
  let target : Option String :=
    match first.2 with
    | none => none
    | some rest => some (String.mk (breakColon rest).1)
  if ty = "generate" || ty = "purchase" then ⟨ty, target⟩
  else ⟨"generate", some "energy"⟩

/-- `getDefaultActions`: the length-10 cyclic
energy / oxygen / water fallback batch. -/
def getDefaultActions : List GameAction :=
  (List.range 10).map (fun i =>
    if i % 3 = 0 then ⟨"generate", some "energy"⟩
    else if i % 3 = 1 then ⟨"generate", some "oxygen"⟩
    else ⟨"generate", some "water"⟩)

/-- `getNextActions`, modelled on the outcome of the remote call:
`Except.error` is a thrown network error, a missing message content or
malformed JSON; `Except.ok none` is parsed JSON whose `actions` field is
missing or not an array; `Except.ok (some acts)` is an `actions` array of
strings.  Only a length-10 array is mapped through `parseAction`; every
other outcome yields `getDefaultActions`. -/
def getNextActions (outcome : Except Unit (Option (List String))) :
    List GameAction :=
  match outcome with
  | .error _ => getDefaultActions
  | .ok none => getDefaultActions
  | .ok (some acts) =>
    if acts.length = 10 then acts.map parseAction else getDefaultActions

/-- The session-step relation: every mutation of the game state reachable at
runtime.  Generate and purchase fire on user input or the action dispatcher
at any time; the drain tick, event effects, countdown tick and the two check
effects fire under their scheduling guards (over-approximated where the
guard only shrinks the step set). -/
inductive Step : GameState → GameState → Prop where
  | generate (s : GameState) (t : ResourceType) : Step s (handleAction s t)
  | purchase (s : GameState) (u : Upgrade) (hu : u ∈ s.upgrades) :
      Step s (purchaseUpgrade s u)
  | drain (s : GameState) (hs : s.gameStarted = true) (hw : s.gameWon = false)
      (hl : s.gameLost = false) :
      Step s { s with resources := drainTick s.resources }
  | eventFire (s : GameState) (e : Event) (he : e ∈ events)
      (hs : s.gameStarted = true) (hw : s.gameWon = false)
      (hl : s.gameLost = false) :
      Step s { s with resources := e.effect s.resources }
  | countdown (s : GameState) (hs : s.gameStarted = true)
      (hw : s.gameWon = false) (hl : s.gameLost = false)
      (hc : isCritical s.resources = true) : Step s (countdownTick s)
  | critCheck (s : GameState) : Step s (criticalCheck s)
  | winChk (s : GameState) : Step s (winCheck s)

/-- States reachable from the initial session state. -/
inductive Reachable : GameState → Prop where
  | init : Reachable initState
  | step {s s' : GameState} : Reachable s → Step s s' → Reachable s'

/-- All four resource fields sit in their clamp ranges. -/
def resInRange (r : Resources) : Prop :=
  0 ≤ r.oxygen ∧ r.oxygen ≤ 100 ∧
  0 ≤ r.water ∧ r.water ≤ 100 ∧
  -60 ≤ r.temperature ∧ r.temperature ≤ 50 ∧
  0 ≤ r.energy ∧ r.energy ≤ 100

/-! ### Clamp-range helper lemmas -/

lemma max_sub_le {c b x d : ℚ} (hcb : c ≤ b) (hx : x ≤ b) (hd : 0 ≤ d) :
    max c (x - d) ≤ b :=
  max_le hcb (by linarith)

lemma le_min_add {c b x d : ℚ} (hcb : c ≤ b) (hx : c ≤ x) (hd : 0 ≤ d) :
    c ≤ min b (x + d) :=
  le_min hcb (by linarith)

lemma foldl_mult_nonneg (l : List Upgrade) (a : ℚ) (ha : 0 ≤ a)
    (h : ∀ u ∈ l, 0 ≤ u.multiplier) :
    0 ≤ l.foldl (fun mult u => mult * u.multiplier) a := by
  induction l generalizing a with
  | nil => exact ha
  | cons u l ih =>
    exact ih (a * u.multiplier)
      (mul_nonneg ha (h u (List.mem_cons_self u l)))
      (fun v hv => h v (List.mem_cons_of_mem u hv))

lemma getMultiplier_nonneg {us : List Upgrade}
    (h : ∀ u ∈ us, 0 ≤ u.multiplier) (t : ResourceType) :
    0 ≤ getMultiplier us t := by
  refine foldl_mult_nonneg _ 1 (by norm_num) (fun v hv => ?_)
  exact h v (List.mem_of_mem_filter hv)

/-! ### Preservation of the clamp ranges by each mutation -/

lemma events_effect_resInRange {e : Event} (he : e ∈ events) (r : Resources)
    (hr : resInRange r) : resInRange (e.effect r) := by
  obtain ⟨h1, h2, h3, h4, h5, h6, h7, h8⟩ := hr
  simp only [events, List.mem_cons, List.not_mem_nil, or_false] at he
  rcases he with rfl | rfl | rfl | rfl | rfl | rfl | rfl | rfl | rfl | rfl | rfl | rfl
  · exact ⟨le_max_left _ _, max_sub_le (by norm_num) h2 (by norm_num), h3, h4,
      le_max_left _ _, max_sub_le (by norm_num) h6 (by norm_num),
      le_max_left _ _, max_sub_le (by norm_num) h8 (by norm_num)⟩
  · exact ⟨h1, h2, le_min_add (by norm_num) h3 (by norm_num), min_le_left _ _,
      h5, h6, h7, h8⟩
  · exact ⟨h1, h2, h3, h4,
      le_min_add (by norm_num) h5 (by norm_num), min_le_left _ _, h7, h8⟩
  · exact ⟨h1, h2, le_min_add (by norm_num) h3 (by norm_num), min_le_left _ _,
      le_min_add (by norm_num) h5 (by norm_num), min_le_left _ _, h7, h8⟩
  · exact ⟨le_max_left _ _, max_sub_le (by norm_num) h2 (by norm_num),
      h3, h4, h5, h6, h7, h8⟩
  · exact ⟨h1, h2, h3, h4,
      le_min_add (by norm_num) h5 (by norm_num), min_le_left _ _, h7, h8⟩
  · exact ⟨le_max_left _ _, max_sub_le (by norm_num) h2 (by norm_num),
      le_max_left _ _, max_sub_le (by norm_num) h4 (by norm_num),
      h5, h6, h7, h8⟩
  · exact ⟨le_max_left _ _, max_sub_le (by norm_num) h2 (by norm_num),
      h3, h4, h5, h6, h7, h8⟩
  · exact ⟨h1, h2, le_max_left _ _, max_sub_le (by norm_num) h4 (by norm_num),
      le_max_left _ _, max_sub_le (by norm_num) h6 (by norm_num), h7, h8⟩
  · exact ⟨le_max_left _ _, max_sub_le (by norm_num) h2 (by norm_num),
      le_max_left _ _, max_sub_le (by norm_num) h4 (by norm_num),
      h5, h6, h7, h8⟩
  · exact ⟨le_max_left _ _, max_sub_le (by norm_num) h2 (by norm_num),
      le_max_left _ _, max_sub_le (by norm_num) h4 (by norm_num),
      h5, h6, le_max_left _ _, max_sub_le (by norm_num) h8 (by norm_num)⟩
  · exact ⟨h1, h2, h3, h4, h5, h6,
      le_max_left _ _, max_sub_le (by norm_num) h8 (by norm_num)⟩

lemma drainTick_resInRange (r : Resources) (hr : resInRange r) :
    resInRange (drainTick r) := by
  obtain ⟨h1, h2, h3, h4, h5, h6, h7, h8⟩ := hr
  have he : 0 ≤ 2 - r.energy / 100 := by linarith
  refine ⟨le_max_left _ _, max_sub_le (by norm_num) h2 (mul_nonneg (by norm_num) he),
    le_max_left _ _, max_sub_le (by norm_num) h4 (mul_nonneg (by norm_num) he),
    le_max_left _ _, max_sub_le (by norm_num) h6 (mul_nonneg (by norm_num) he),
    le_max_left _ _, max_sub_le (by norm_num) h8 (by norm_num)⟩

lemma handleAction_upgrades (s : GameState) (t : ResourceType) :
    (handleAction s t).upgrades = s.upgrades := by
  unfold handleAction
  dsimp only
  split
  · rfl
  split
  · rfl
  split <;> rfl

lemma handleAction_resInRange (s : GameState) (t : ResourceType)
    (hm : ∀ u ∈ s.upgrades, 0 ≤ u.multiplier)
    (hr : resInRange s.resources) : resInRange (handleAction s t).resources := by
  obtain ⟨h1, h2, h3, h4, h5, h6, h7, h8⟩ := hr
  have hmul : ∀ t', 0 ≤ getMultiplier s.upgrades t' := getMultiplier_nonneg hm
  have heff : 0 ≤ s.resources.energy / 100 := by positivity
  have hgain : ∀ t', 0 ≤ baseGain t' * getMultiplier s.upgrades t' *
      (s.resources.energy / 100) := by
    intro t'
    have hb : 0 ≤ baseGain t' := by cases t' <;> norm_num [baseGain]
    exact mul_nonneg (mul_nonneg hb (hmul t')) heff
  unfold handleAction
  dsimp only
  split
  · exact ⟨h1, h2, h3, h4, h5, h6, h7, h8⟩
  split
  · exact ⟨h1, h2, h3, h4, h5, h6,
      le_min (by norm_num) (by have := hmul ResourceType.energy; linarith),
      min_le_left _ _⟩
  split
  · exact ⟨h1, h2, h3, h4, h5, h6, h7, h8⟩
  · cases t with
    | oxygen =>
      simp only [Resources.set, Resources.get]
      exact ⟨le_min_add (by decide) h1 (hgain _), min_le_left _ _,
        h3, h4, h5, h6,
        le_max_left _ _, max_sub_le (by norm_num) h8 (by norm_num)⟩
    | water =>
      simp only [Resources.set, Resources.get]
      exact ⟨h1, h2, le_min_add (by decide) h3 (hgain _), min_le_left _ _,
        h5, h6,
        le_max_left _ _, max_sub_le (by norm_num) h8 (by norm_num)⟩
    | temperature =>
      simp only [Resources.set, Resources.get]
      exact ⟨h1, h2, h3, h4,
        le_min_add (by decide) h5 (hgain _), min_le_left _ _,
        le_max_left _ _, max_sub_le (by norm_num) h8 (by norm_num)⟩
    | energy => simp_all

lemma purchaseUpgrade_resources (s : GameState) (u : Upgrade) :
    (purchaseUpgrade s u).resources = s.resources := by
  unfold purchaseUpgrade
  dsimp only
  split
  · rfl
  split <;> rfl

lemma purchaseUpgrade_upgrades_nonneg (s : GameState) (u : Upgrade)
    (hm : ∀ v ∈ s.upgrades, 0 ≤ v.multiplier) :
    ∀ v ∈ (purchaseUpgrade s u).upgrades, 0 ≤ v.multiplier := by
  unfold purchaseUpgrade
  dsimp only
  split
  · exact hm
  split
  · intro v hv
    obtain ⟨w, hw, rfl⟩ := List.mem_map.mp hv
    have := hm w hw
    split <;> simpa
  · exact hm

lemma countdownTick_resources (s : GameState) :
    (countdownTick s).resources = s.resources := by
  unfold countdownTick
  split <;> rfl

lemma countdownTick_upgrades (s : GameState) :
    (countdownTick s).upgrades = s.upgrades := by
  unfold countdownTick
  split <;> rfl

lemma criticalCheck_resources (s : GameState) :
    (criticalCheck s).resources = s.resources := by
  unfold criticalCheck
  split
  · rfl
  split
  · split <;> rfl
  · rfl

lemma criticalCheck_upgrades (s : GameState) :
    (criticalCheck s).upgrades = s.upgrades := by
  unfold criticalCheck
  split
  · rfl
  split
  · split <;> rfl
  · rfl

lemma winCheck_resources (s : GameState) :
    (winCheck s).resources = s.resources := by
  unfold winCheck
  split
  · rfl
  split <;> rfl

lemma winCheck_upgrades (s : GameState) :
    (winCheck s).upgrades = s.upgrades := by
  unfold winCheck
  split
  · rfl
  split <;> rfl

/-- The session invariant: every reachable state has nonnegative upgrade
multipliers and in-range resources. -/
lemma reachable_inv {s : GameState} (h : Reachable s) :
    (∀ u ∈ s.upgrades, 0 ≤ u.multiplier) ∧ resInRange s.resources := by
  induction h with
  | init =>
    constructor
    · intro u hu
      fin_cases hu <;> norm_num
    · exact ⟨by norm_num [initState], by norm_num [initState],
        by norm_num [initState], by norm_num [initState],
        by norm_num [initState], by norm_num [initState],
        by norm_num [initState], by norm_num [initState]⟩
  | @step s s' hr hst ih =>
    obtain ⟨ihm, ihr⟩ := ih
    cases hst with
    | generate t =>
      rw [handleAction_upgrades]
      exact ⟨ihm, handleAction_resInRange s t ihm ihr⟩
    | purchase u hu =>
      rw [purchaseUpgrade_resources]
      exact ⟨purchaseUpgrade_upgrades_nonneg s u ihm, ihr⟩
    | drain hs hw hl => exact ⟨ihm, drainTick_resInRange _ ihr⟩
    | eventFire e he hs hw hl =>
      exact ⟨ihm, events_effect_resInRange he _ ihr⟩
    | countdown hs hw hl hc =>
      rw [countdownTick_resources, countdownTick_upgrades]
      exact ⟨ihm, ihr⟩
    | critCheck =>
      rw [criticalCheck_resources, criticalCheck_upgrades]
      exact ⟨ihm, ihr⟩
    | winChk =>
      rw [winCheck_resources, winCheck_upgrades]
      exact ⟨ihm, ihr⟩

/-! ### Field read/write lemmas and further helpers -/

lemma Resources.get_set_same (r : Resources) (t : ResourceType) (v : ℚ) :
    (r.set t v).get t = v := by
  cases t <;> rfl

lemma Resources.get_set_other (r : Resources) {t t' : ResourceType} (v : ℚ)
    (h : t' ≠ t) : (r.set t v).get t' = r.get t' := by
  cases t <;> cases t' <;> first | rfl | exact absurd rfl h

lemma Resources.get_setEnergy (r : Resources) {t' : ResourceType} (v : ℚ)
    (h : t' ≠ ResourceType.energy) :
    ({ r with energy := v } : Resources).get t' = r.get t' := by
  cases t' <;> first | rfl | exact absurd rfl h

lemma Resources.set_energy_eq (r : Resources) {t : ResourceType} (v : ℚ)
    (h : t ≠ ResourceType.energy) : (r.set t v).energy = r.energy := by
  cases t <;> first | rfl | exact absurd rfl h

lemma handleAction_started (s : GameState) (t : ResourceType) :
    (handleAction s t).gameStarted = true := by
  unfold handleAction
  dsimp only
  split
  · rfl
  split
  · rfl
  split <;> rfl

lemma purchaseUpgrade_started (s : GameState) (u : Upgrade) :
    (purchaseUpgrade s u).gameStarted = true := by
  unfold purchaseUpgrade
  dsimp only
  split
  · rfl
  split <;> rfl

lemma foldl_mult_eq_prod (l : List Upgrade) (a : ℚ) :
    l.foldl (fun mult u => mult * u.multiplier) a =
      a * (l.map Upgrade.multiplier).prod := by
  induction l generalizing a with
  | nil => simp
  | cons u l ih =>
    simp only [List.foldl_cons, List.map_cons, List.prod_cons]
    rw [ih, mul_assoc]

/-! ### Claim theorems -/

/-- C1: in every reachable session state — hence after every mutation
(generate, purchase, drain tick, event effect, and the check effects) —
oxygen, water and energy lie in [0, 100] and temperature in [-60, 50]. -/
theorem C1_resource_clamp_invariant (s : GameState) (h : Reachable s) :
    resInRange s.resources :=
  (reachable_inv h).2

/-- Witness for C1 at a concrete reachable state: the initial state after
one generate call, one drain tick and one event effect. -/
theorem C1_resource_clamp_invariant_witness :
    resInRange { (handleAction initState ResourceType.oxygen) with
        resources := drainTick (handleAction initState ResourceType.oxygen).resources
      }.resources :=
  C1_resource_clamp_invariant _
    (Reachable.step (Reachable.step Reachable.init
        (Step.generate initState ResourceType.oxygen))
      (Step.drain _ (by decide) (by decide) (by decide)))

/-- C9: the effective multiplier of a resource type is the product of the
multipliers of its purchased upgrades, and 1 when none is purchased. -/
theorem C9_multiplier_is_product (us : List Upgrade) (t : ResourceType) :
    getMultiplier us t =
      ((us.filter (fun u => u.resourceType == t && u.purchased)).map
        Upgrade.multiplier).prod
    ∧ ((∀ u ∈ us, ¬(u.resourceType = t ∧ u.purchased = true)) →
        getMultiplier us t = 1) := by
  constructor
  · rw [getMultiplier, foldl_mult_eq_prod, one_mul]
  · intro h
    have hnil : us.filter (fun u => u.resourceType == t && u.purchased) = [] := by
      rw [List.filter_eq_nil_iff]
      intro u hu
      have := h u hu
      simp only [Bool.and_eq_true, beq_iff_eq, not_and] at this ⊢
      intro hrt
      exact fun hp => this hrt hp
    rw [getMultiplier, hnil]
    rfl

/-- Witness for C9: in the initial catalog nothing is purchased, so the
oxygen multiplier is the empty product, 1. -/
theorem C9_multiplier_is_product_witness :
    getMultiplier initialUpgrades ResourceType.oxygen = 1 :=
  (C9_multiplier_is_product initialUpgrades ResourceType.oxygen).2 (by decide)

/-- A concrete state exactly at the win threshold. -/
def winThresholdState : GameState :=
  { initState with
    resources := { oxygen := 100, water := 100, temperature := 15, energy := 50 } }

/-- A concrete state just under the water threshold. -/
def nearWinState : GameState :=
  { initState with
    resources := { oxygen := 100, water := 99.9, temperature := 15, energy := 50 } }

/-- C3: the win check is the identity once lost; otherwise it sets `gameWon`
exactly when `oxygen ≥ 100 ∧ water ≥ 100 ∧ temperature ≥ 15`; resources
(100, 100, 15) win while (100, 99.9, 15) do not. -/
theorem C3_win_condition (s : GameState) :
    (s.gameLost = true → winCheck s = s)
    ∧ (s.gameLost = false →
        ((winCheck s).gameWon = true ↔
          (s.gameWon = true ∨
            (100 ≤ s.resources.oxygen ∧ 100 ≤ s.resources.water ∧
              15 ≤ s.resources.temperature))))
    ∧ (winCheck winThresholdState).gameWon = true
    ∧ (winCheck nearWinState).gameWon = false := by
  refine ⟨?_, ?_,
    by norm_num [winCheck, winThresholdState, initState],
    by norm_num [winCheck, nearWinState, initState]⟩
  · intro hl
    simp [winCheck, hl]
  · intro hl
    simp only [winCheck, hl, Bool.false_eq_true, if_false]
    split
    · rename_i hcond
      simp only [true_iff]
      exact Or.inr hcond
    · rename_i hcond
      constructor
      · exact fun hwon => Or.inl hwon
      · rintro (hwon | hcond2)
        · exact hwon
        · exact absurd hcond2 hcond

/-- Witness for C3 at the threshold state: not lost, and the win flag after
the check reflects the threshold condition. -/
theorem C3_win_condition_witness :
    (winCheck winThresholdState).gameWon = true ↔
      (winThresholdState.gameWon = true ∨
        (100 ≤ winThresholdState.resources.oxygen ∧
          100 ≤ winThresholdState.resources.water ∧
          15 ≤ winThresholdState.resources.temperature)) :=
  (C3_win_condition winThresholdState).2.1 rfl

/-- C5: `generate(energy)` succeeds in every non-terminal state whatever the
energy level: energy becomes `min 100 (energy + 8 × multiplier)`, no energy
is spent, the other resources are untouched, and +2 credits are awarded. -/
theorem C5_generate_energy (s : GameState)
    (hw : s.gameWon = false) (hl : s.gameLost = false) :
    (handleAction s ResourceType.energy).resources.energy
      = min 100 (s.resources.energy +
          8 * getMultiplier s.upgrades ResourceType.energy)
    ∧ (handleAction s ResourceType.energy).resources.oxygen = s.resources.oxygen
    ∧ (handleAction s ResourceType.energy).resources.water = s.resources.water
    ∧ (handleAction s ResourceType.energy).resources.temperature
        = s.resources.temperature
    ∧ (handleAction s ResourceType.energy).credits = s.credits + 2 := by
  simp [handleAction, hw, hl]

/-- Witness for C5 at the initial state (energy 100): applies the theorem
with the non-terminal hypotheses discharged. -/
theorem C5_generate_energy_witness :
    (handleAction initState ResourceType.energy).resources.energy
      = min 100 (initState.resources.energy +
          8 * getMultiplier initState.upgrades ResourceType.energy)
    ∧ (handleAction initState ResourceType.energy).resources.oxygen
        = initState.resources.oxygen
    ∧ (handleAction initState ResourceType.energy).resources.water
        = initState.resources.water
    ∧ (handleAction initState ResourceType.energy).resources.temperature
        = initState.resources.temperature
    ∧ (handleAction initState ResourceType.energy).credits
        = initState.credits + 2 :=
  C5_generate_energy initState rfl rfl

/-- C10: both entry points set `gameStarted` before any other check, so even
rejected calls (insufficient energy, insufficient credits) start the
session; the critical-check effect is inert until the session starts. -/
theorem C10_rejected_calls_start_game (s : GameState) (u : Upgrade)
    (t : ResourceType) :
    (handleAction s t).gameStarted = true
    ∧ (purchaseUpgrade s u).gameStarted = true
    ∧ (s.gameWon = false → s.gameLost = false → t ≠ ResourceType.energy →
        s.resources.energy < 10 →
        (handleAction s t).resources = s.resources ∧
        (handleAction s t).credits = s.credits)
    ∧ (s.gameWon = false → s.gameLost = false → u.purchased = false →
        s.credits < u.cost →
        (purchaseUpgrade s u).credits = s.credits ∧
        (purchaseUpgrade s u).upgrades = s.upgrades)
    ∧ (s.gameStarted = false → criticalCheck s = s) := by
  refine ⟨handleAction_started s t, purchaseUpgrade_started s u, ?_, ?_, ?_⟩
  · intro hw hl ht hlt
    simp [handleAction, hw, hl, ht, hlt]
  · intro hw hl hp hcred
    have : ¬u.cost ≤ s.credits := not_le.mpr hcred
    simp [purchaseUpgrade, hw, hl, hp, this]
  · intro hns
    simp [criticalCheck, hns]

/-- Witness for C10: a purchase attempt on the initial state with an
unaffordable upgrade (cost 80 > 30 credits) still starts the game and
changes neither credits nor upgrades. -/
theorem C10_rejected_calls_start_game_witness :
    (purchaseUpgrade initState
        ⟨"oxygen1", "Basic Oxygen Generator", 80, ResourceType.oxygen, 1.2,
          false⟩).gameStarted = true
    ∧ (purchaseUpgrade initState
        ⟨"oxygen1", "Basic Oxygen Generator", 80, ResourceType.oxygen, 1.2,
          false⟩).credits = initState.credits := by
  have h := C10_rejected_calls_start_game initState
    ⟨"oxygen1", "Basic Oxygen Generator", 80, ResourceType.oxygen, 1.2, false⟩
    ResourceType.oxygen
  exact ⟨h.2.1, (h.2.2.2.1 rfl rfl rfl (by norm_num [initState])).1⟩

/-- A concrete started, non-terminal, critical state (oxygen at 3). -/
def criticalState : GameState :=
  { initState with
    gameStarted := true
    resources := { oxygen := 3, water := 50, temperature := 0, energy := 50 } }

/-- C2: in a started non-terminal session, becoming critical (any of oxygen,
water, energy ≤ 5) arms the critical flag with the countdown reset to 30;
each countdown tick decrements, and from ≤ 1 it sets `gameLost` with the
countdown pinned at 0; leaving the critical condition disarms the flag and
resets the countdown to 30; temperature never affects the critical test. -/
theorem C2_critical_state_machine (s : GameState) :
    (s.gameStarted = true → s.gameWon = false → s.gameLost = false →
      isCritical s.resources = true → s.criticalTimer = 0 →
        (criticalCheck s).criticalTimer = 1 ∧
        (criticalCheck s).countdownSeconds = 30)
    ∧ (2 ≤ s.countdownSeconds →
        (countdownTick s).countdownSeconds = s.countdownSeconds - 1 ∧
        (countdownTick s).gameLost = s.gameLost)
    ∧ (s.countdownSeconds ≤ 1 →
        (countdownTick s).gameLost = true ∧
        (countdownTick s).countdownSeconds = 0)
    ∧ (s.gameStarted = true → s.gameWon = false → s.gameLost = false →
        isCritical s.resources = false →
        (criticalCheck s).criticalTimer = 0 ∧
        (criticalCheck s).countdownSeconds = 30)
    ∧ (∀ x : ℚ, isCritical { s.resources with temperature := x } =
        isCritical s.resources) := by
  refine ⟨?_, ?_, ?_, ?_, fun x => rfl⟩
  · intro hs hw hl hc h0
    simp [criticalCheck, hs, hw, hl, hc, h0]
  · intro h2
    have : ¬s.countdownSeconds ≤ 1 := by omega
    simp [countdownTick, this]
  · intro h1
    simp [countdownTick, h1]
  · intro hs hw hl hc
    simp [criticalCheck, hs, hw, hl, hc]

/-- Witness for C2 at the concrete critical state: entering the critical
condition arms the flag with a 30-second countdown, and a countdown tick at
1 second loses the game. -/
theorem C2_critical_state_machine_witness :
    ((criticalCheck criticalState).criticalTimer = 1 ∧
      (criticalCheck criticalState).countdownSeconds = 30)
    ∧ (countdownTick { criticalState with countdownSeconds := 1 }).gameLost
        = true := by
  have h := C2_critical_state_machine criticalState
  have h' := C2_critical_state_machine { criticalState with countdownSeconds := 1 }
  refine ⟨h.1 rfl rfl rfl ?_ rfl, (h'.2.2.1 (by norm_num)).1⟩
  norm_num [isCritical, criticalState]

/-- C4: a non-energy generate is a no-op (up to the started flag) when
energy < 10; with energy ≥ 10 it adds
`baseGain × multiplier × (pre-mutation energy / 100)` to its resource
clamped at 100 (50 for temperature), drops energy by 10 clamped at 0,
leaves the other resources alone and awards +2 credits; the base gains are
oxygen 3, water 3, temperature 0.3. -/
theorem C4_generate_nonenergy (s : GameState) (t : ResourceType)
    (hw : s.gameWon = false) (hl : s.gameLost = false)
    (ht : t ≠ ResourceType.energy) :
    (s.resources.energy < 10 →
      (handleAction s t).resources = s.resources ∧
      (handleAction s t).credits = s.credits ∧
      (handleAction s t).upgrades = s.upgrades)
    ∧ (10 ≤ s.resources.energy →
      (handleAction s t).resources.get t
        = min (if t = ResourceType.temperature then 50 else 100)
            (s.resources.get t +
              baseGain t * getMultiplier s.upgrades t *
                (s.resources.energy / 100))
      ∧ (handleAction s t).resources.energy = max 0 (s.resources.energy - 10)
      ∧ (∀ t', t' ≠ t → t' ≠ ResourceType.energy →
          (handleAction s t).resources.get t' = s.resources.get t')
      ∧ (handleAction s t).credits = s.credits + 2)
    ∧ baseGain ResourceType.oxygen = 3 ∧ baseGain ResourceType.water = 3
    ∧ baseGain ResourceType.temperature = 0.3 := by
  refine ⟨?_, ?_, rfl, rfl, rfl⟩
  · intro hlt
    exact ⟨by simp [handleAction, hw, hl, ht, hlt],
      by simp [handleAction, hw, hl, ht, hlt],
      by simp [handleAction, hw, hl, ht, hlt]⟩
  · intro hge
    have hnlt : ¬s.resources.energy < 10 := not_lt.mpr hge
    cases t with
    | energy => exact absurd rfl ht
    | oxygen =>
      refine ⟨?_, ?_, ?_, ?_⟩
      · simp [handleAction, hw, hl, hnlt, Resources.get, Resources.set]
      · simp [handleAction, hw, hl, hnlt, Resources.set]
      · intro t' h1 h2
        cases t' <;>
          first
            | exact absurd rfl h1
            | exact absurd rfl h2
            | simp [handleAction, hw, hl, hnlt, Resources.get, Resources.set]
      · simp [handleAction, hw, hl, hnlt]
    | water =>
      refine ⟨?_, ?_, ?_, ?_⟩
      · simp [handleAction, hw, hl, hnlt, Resources.get, Resources.set]
      · simp [handleAction, hw, hl, hnlt, Resources.set]
      · intro t' h1 h2
        cases t' <;>
          first
            | exact absurd rfl h1
            | exact absurd rfl h2
            | simp [handleAction, hw, hl, hnlt, Resources.get, Resources.set]
      · simp [handleAction, hw, hl, hnlt]
    | temperature =>
      refine ⟨?_, ?_, ?_, ?_⟩
      · simp [handleAction, hw, hl, hnlt, Resources.get, Resources.set]
      · simp [handleAction, hw, hl, hnlt, Resources.set]
      · intro t' h1 h2
        cases t' <;>
          first
            | exact absurd rfl h1
            | exact absurd rfl h2
            | simp [handleAction, hw, hl, hnlt, Resources.get, Resources.set]
      · simp [handleAction, hw, hl, hnlt]

/-- Witness for C4 at the initial state (energy 100 ≥ 10), generating
oxygen. -/
theorem C4_generate_nonenergy_witness :
    (handleAction initState ResourceType.oxygen).resources.get
        ResourceType.oxygen
      = min (if ResourceType.oxygen = ResourceType.temperature then 50 else 100)
          (initState.resources.get ResourceType.oxygen +
            baseGain ResourceType.oxygen *
              getMultiplier initState.upgrades ResourceType.oxygen *
              (initState.resources.energy / 100))
    ∧ (handleAction initState ResourceType.oxygen).resources.energy
        = max 0 (initState.resources.energy - 10) :=
  have h := (C4_generate_nonenergy initState ResourceType.oxygen rfl rfl
    (by decide)).2.1 (by norm_num [initState])
  ⟨h.1, h.2.1⟩

lemma setStarted_self (s : GameState) (h : s.gameStarted = true) :
    { s with gameStarted := true } = s := by
  rcases s with ⟨r, c, up, w, l, st, ct, cd⟩
  cases h
  rfl

/-- C7: purchase is a no-op (besides the started flag) when the game is
terminal, the upgrade is already purchased, or credits are short; a
successful purchase deducts the cost and irreversibly flags the entry, and a
repeat attempt on the now-purchased entry changes no state. -/
theorem C7_purchase_noop_and_idempotent (s : GameState) (u : Upgrade) :
    ((s.gameWon = true ∨ s.gameLost = true) →
      purchaseUpgrade s u = { s with gameStarted := true })
    ∧ (u.purchased = true →
      purchaseUpgrade s u = { s with gameStarted := true })
    ∧ (s.credits < u.cost →
      purchaseUpgrade s u = { s with gameStarted := true })
    ∧ (s.gameWon = false → s.gameLost = false → u.purchased = false →
        u.cost ≤ s.credits →
        (purchaseUpgrade s u).credits = s.credits - u.cost
        ∧ (purchaseUpgrade s u).upgrades = s.upgrades.map
            (fun v => if v.id = u.id then { v with purchased := true } else v)
        ∧ (∀ v ∈ (purchaseUpgrade s u).upgrades, v.id = u.id →
            v.purchased = true)
        ∧ (∀ v, v.purchased = true →
            purchaseUpgrade (purchaseUpgrade s u) v = purchaseUpgrade s u)) := by
  have hnoop : ∀ (s2 : GameState) (w : Upgrade), w.purchased = true →
      purchaseUpgrade s2 w = { s2 with gameStarted := true } := by
    intro s2 w hw2
    simp [purchaseUpgrade, hw2]
  refine ⟨?_, hnoop s u, ?_, ?_⟩
  · rintro (hw | hl)
    · simp [purchaseUpgrade, hw]
    · simp [purchaseUpgrade, hl]
  · intro hcred
    have hc : ¬u.cost ≤ s.credits := not_le.mpr hcred
    simp [purchaseUpgrade, hc]
  · intro hw hl hp hcost
    refine ⟨by simp [purchaseUpgrade, hw, hl, hp, hcost],
      by simp [purchaseUpgrade, hw, hl, hp, hcost], ?_, ?_⟩
    · intro v hv hid
      rw [show (purchaseUpgrade s u).upgrades = s.upgrades.map
          (fun v => if v.id = u.id then { v with purchased := true } else v)
          from by simp [purchaseUpgrade, hw, hl, hp, hcost]] at hv
      rcases List.mem_map.mp hv with ⟨w, hwmem, rfl⟩
      by_cases hww : w.id = u.id
      · simp [hww]
      · rw [if_neg hww] at hid ⊢
        exact absurd hid hww
    · intro v hv
      rw [hnoop _ v hv, setStarted_self _ (purchaseUpgrade_started s u)]

/-- Witness for C7: the initial state cannot afford the 80-credit upgrade
with 30 credits, so the purchase only starts the game. -/
theorem C7_purchase_noop_and_idempotent_witness :
    purchaseUpgrade initState
        ⟨"oxygen1", "Basic Oxygen Generator", 80, ResourceType.oxygen, 1.2,
          false⟩
      = { initState with gameStarted := true } :=
  (C7_purchase_noop_and_idempotent initState
    ⟨"oxygen1", "Basic Oxygen Generator", 80, ResourceType.oxygen, 1.2,
      false⟩).2.2.1 (by norm_num [initState])

/-- C6: code bug.  The event effect's dependency array omits
`eventCooldowns`, so the interval's eligibility filter reads the closure
snapshot captured at effect mount instead of the live table.  Evaluated at
the failing input: with the mount snapshot empty, the roll at t = 6000 ms
selects `dust_storm` and records its cooldown in the live table; the roll
at t = 12000 ms — 6000 ms after that trigger, well inside the claimed 15 s
cooldown — selects `dust_storm` again, although a selection consulting the
live table would have skipped it for `ice_discovery`. -/
theorem C6_event_cooldown_failing_input :
    ((eventIntervalTick [] [] 6000 true 0).2.map Event.id = some "dust_storm"
      ∧ (eventIntervalTick [] [] 6000 true 0).1 = [("dust_storm", 6000)])
    ∧ ((eventIntervalTick [] [("dust_storm", 6000)] 12000 true 0).2.map
          Event.id = some "dust_storm"
      ∧ ((12000 : Int) - 6000 < 15000))
    ∧ (eventRollSelect [("dust_storm", 6000)] 12000 0).map Event.id
        = some "ice_discovery" :=
  ⟨⟨rfl, rfl⟩, ⟨rfl, by decide⟩, rfl⟩

/-- C8 counterexample: a valid 10-element response containing the malformed
action string `"generate"` (no colon, so no target — not of the documented
`kind:target` form) is NOT replaced by `generate:energy`: it is kept as a
generate action with a missing target. -/
theorem C8_agent_fallback_counterexample :
    ("generate" :: List.replicate 9 "generate:energy").length = 10
    ∧ getNextActions
        (Except.ok (some ("generate" :: List.replicate 9 "generate:energy")))
      = GameAction.mk "generate" none ::
          List.replicate 9 (GameAction.mk "generate" (some "energy"))
    ∧ GameAction.mk "generate" none ≠ GameAction.mk "generate" (some "energy") := by
  refine ⟨rfl, ?_, by decide⟩
  rfl

/-- C8 amended: every failure outcome (network error / malformed JSON /
missing content, missing or non-array `actions` field, wrong-length array)
yields the fixed cyclic energy/oxygen/water batch of exactly 10 actions; a
valid 10-element response is mapped entrywise by `parseAction`, which
replaces a string whose text before the first colon is neither `generate`
nor `purchase` by `generate:energy` and keeps every other string as its
parsed kind and (possibly missing) target. -/
theorem C8_agent_fallback_amended (acts : List String) :
    getNextActions (Except.error ()) = getDefaultActions
    ∧ getNextActions (Except.ok none) = getDefaultActions
    ∧ (acts.length ≠ 10 →
        getNextActions (Except.ok (some acts)) = getDefaultActions)
    ∧ (acts.length = 10 →
        getNextActions (Except.ok (some acts)) = acts.map parseAction)
    ∧ getDefaultActions =
        [⟨"generate", some "energy"⟩, ⟨"generate", some "oxygen"⟩,
         ⟨"generate", some "water"⟩, ⟨"generate", some "energy"⟩,
         ⟨"generate", some "oxygen"⟩, ⟨"generate", some "water"⟩,
         ⟨"generate", some "energy"⟩, ⟨"generate", some "oxygen"⟩,
         ⟨"generate", some "water"⟩, ⟨"generate", some "energy"⟩]
    ∧ (∀ str : String, String.mk (breakColon str.toList).1 ≠ "generate" →
        String.mk (breakColon str.toList).1 ≠ "purchase" →
        parseAction str = ⟨"generate", some "energy"⟩) := by
  refine ⟨rfl, rfl, ?_, ?_, rfl, ?_⟩
  · intro h
    simp [getNextActions, h]
  · intro h
    simp [getNextActions, h]
  · intro str h1 h2
    unfold parseAction
    dsimp only
    rw [if_neg]
    simp only [Bool.or_eq_true, decide_eq_true_eq, not_or]
    exact ⟨h1, h2⟩

/-- Witness for C8 amended: a 9-element response falls back to the cyclic
default batch, and the malformed string `"launch:rocket"` parses to
`generate:energy`. -/
theorem C8_agent_fallback_amended_witness :
    getNextActions (Except.ok (some (List.replicate 9 "generate:energy")))
      = getDefaultActions
    ∧ parseAction "launch:rocket" = ⟨"generate", some "energy"⟩ :=
  ⟨(C8_agent_fallback_amended (List.replicate 9 "generate:energy")).2.2.1
      (by decide),
   (C8_agent_fallback_amended []).2.2.2.2.2 "launch:rocket" (by decide)
     (by decide)⟩

end Curmars
